import Mathlib

/-!
Shallow embedding of `src/lockfile.py` (class `FileLocker` and the module-level
`__unlockall` termination hook).

The Python code coordinates processes through a shared directory.  The embedding
makes every external effect explicit:

* the instance attributes of a `FileLocker` object become the fields of the
  `Lockfile.FileLocker` structure (`__pathLocker`, `__id`, `__isLocked`,
  `__start`, `__serverTimeLock` cache, `timeout`, folder and base filename);
  two extra fields project the world onto one handle: `registered` is this
  handle's membership in the class-level `INSTANCES_LOCKED` weak set, and
  `ownTicketOnDisk` is whether the file currently named by `pathLocker`
  exists on disk (`os.path.isfile(self.__pathLocker)`);
* nondeterministic externals (successive `time.time()` readings, successive
  `os.listdir` snapshots, successive `random.randrange` draws, successive
  `os.path.isfile` answers for candidate names, the temp-file mtime used by
  the `_serverTimeLock` property, and whether `open()` raises `IOError`) are
  supplied by an oracle `Env`; a cursor `Cur` counts how many of each the
  execution has consumed;
* loops are run on explicit fuel (`none` = fuel exhausted), and a raised
  Python exception is an `Outcome.raised` carrying a `PyError`.
-/

namespace Lockfile

/-- Python exceptions that the code in `lockfile.py` can raise or catch. -/
inductive PyError where
  | runtimeError (msg : String)
  | timeoutError (msg : String)
  | ioError
  | genericError (msg : String)
  | valueError
  | typeError
deriving DecidableEq, Repr

/-- Result of running a statement: normal completion or a raised exception. -/
inductive Outcome where
  | ok
  | raised (e : PyError)
deriving DecidableEq, Repr

/-- True exactly when the outcome is a raised `TimeoutError`. -/
def Outcome.isTimeout : Outcome → Bool
  | .raised (.timeoutError _) => true
  | _ => false

/-- Instance state of one `FileLocker` object, plus the two world projections
`registered` (membership in `FileLocker.INSTANCES_LOCKED`) and
`ownTicketOnDisk` (existence on disk of the file named by `pathLocker`). -/
structure FileLocker where
  timeout : Int
  folder : String
  filename : String
  pathLocker : Option String
  id : Int
  isLocked : Bool
  start : Option Int
  serverTimeLockCache : Option Int
  registered : Bool
  ownTicketOnDisk : Bool
deriving DecidableEq, Repr

/-- One entry of an `os.listdir` snapshot of the namespace directory.
A `ticket i m oe` is a file matching the `_LOCK_REGEX_FORMAT` pattern for this
handle's base filename, with parsed 6-digit counter `i` and modification time
`m`; `oe` says whether the per-file stat/remove in `__getLockFileIds` raises
`OSError` for it (a peer racing on the same file).  An `other` entry does not
match the pattern. -/
inductive DirEntry where
  | ticket (id : Nat) (mtime : Int) (osErr : Bool)
  | other (name : String)
deriving DecidableEq, Repr

/-- Oracle cursor: how many `time.time()` readings (`t`), directory listings
(`d`), random draws (`r`) and candidate `os.path.isfile` checks (`e`) have been
consumed so far. -/
structure Cur where
  t : Nat
  d : Nat
  r : Nat
  e : Nat
deriving DecidableEq, Repr

/-- Oracle for everything outside the object: `times k` is the k-th
`time.time()` reading, `dirs k` the k-th `os.listdir` snapshot, `rands k` the
k-th `random.randrange(10e5)` draw, `candExists k` the k-th
`os.path.isfile` answer for a freshly built candidate lock name,
`serverTime` the mtime that the `_serverTimeLock` temporary file would have if
it were created now, and `createFails` whether `open(pathLocker, "w")` raises
`IOError`. -/
structure Env where
  times : Nat → Int
  dirs : Nat → List DirEntry
  rands : Nat → Nat
  candExists : Nat → Bool
  serverTime : Int
  createFails : Bool

/-- Single-quote character, used in Python f-string messages. -/
def sq : String := String.singleton (Char.ofNat 39)

/-- Zero-pad a number to 6 digits, as the format `{:06d}` does. -/
def pad6 (n : Nat) : String :=
  let s := toString n
  String.mk (List.replicate (6 - s.length) (Char.ofNat 48)) ++ s

/-- Full path of the ticket file `os.path.join(folder, _LOCK_FORMAT.format(filename, i))`. -/
def lockPath (folder filename : String) (i : Nat) : String :=
  folder ++ "/" ++ filename ++ "." ++ pad6 i

/-- Message of the `TimeoutError` raised by `__sleep`. -/
def timeoutMsg (t : Int) : String :=
  "Timeout reached after " ++ toString t ++ " seconds!"

/-- Message of the `Exception` raised when ticket creation fails in `lock`. -/
def createMsg (p : String) : String :=
  "Cannot create the lock file: " ++ sq ++ p ++ sq

/-- Message of the `Exception` raised by `__init__` when the parent directory
does not exist. -/
def badPathMsg (p : String) : String :=
  "The specified path is not contained in an existing directory: " ++ sq ++ p ++ sq

/-- Ticket entries of a directory snapshot, in order: the
`pattern.match` filter at the top of `__getLockFileIds`. -/
def ticketsOf (entries : List DirEntry) : List (Nat × Int × Bool) :=
  entries.filterMap fun entry =>
    match entry with
    | .ticket i m oe => some (i, m, oe)
    | .other _ => none

/-- Whether the reap loop of `__getLockFileIds` removes this entry: it must be
a matched ticket, its per-file stat/remove must not raise `OSError`, and its
age `stl - mtime` must strictly exceed the handle's timeout
(`self.timeout < (self._serverTimeLock - serverTimeOtherLock).total_seconds()`). -/
def reapedB (timeout stl : Int) : DirEntry → Bool
  | .ticket _ m oe => !oe && decide (timeout < stl - m)
  | .other _ => false

/-- Property `FileLocker._serverTimeLock`: on first access record the mtime
`fresh` of a throwaway temp file and cache it; afterwards return the cached
value.  Returns the reading and the updated handle. -/
def FileLocker.serverTimeLock (fresh : Int) (s : FileLocker) : Int × FileLocker :=
  match s.serverTimeLockCache with
  | none => (fresh, { s with serverTimeLockCache := some fresh })
  | some v => (v, s)

/-- Method `FileLocker.__getLockFileIds` applied to one `os.listdir` snapshot:
match the ticket pattern, reap every matched file whose age per the (cached)
reference clock strictly exceeds the timeout — swallowing per-file `OSError` —
and return the parsed counters of ALL matched files (including just-reaped
ones), the surviving directory entries, and the updated handle. -/
def FileLocker.getLockFileIds (fresh : Int) (entries : List DirEntry)
    (s : FileLocker) : List Nat × List DirEntry × FileLocker :=
  let ms := ticketsOf entries
  if ms.isEmpty then
    (ms.map fun t => t.1, entries, s)
  else
    let r := FileLocker.serverTimeLock fresh s
    (ms.map fun t => t.1,
     entries.filter fun entry => !reapedB s.timeout r.1 entry,
     r.2)

/-- Method `FileLocker.unlock`: remove the handle from `INSTANCES_LOCKED` if
present, then delete its ticket file if `pathLocker` is set and the file
exists. -/
def FileLocker.unlock (s : FileLocker) : FileLocker :=
  let s₁ := if s.registered then { s with registered := false } else s
  if s₁.pathLocker.isSome && s₁.ownTicketOnDisk then
    { s₁ with ownTicketOnDisk := false }
  else s₁

/-- Method `FileLocker.__sleep`: read `time.time()`; if
`start + timeout < now`, call `unlock` and raise `TimeoutError`; otherwise
sleep one poll interval and continue.  (`start` is always set inside `lock`;
were it still `None`, Python would raise a `TypeError` on the addition.) -/
def FileLocker.sleepStep (env : Env) (c : Cur) (s : FileLocker) :
    Outcome × FileLocker × Cur :=
  let now := env.times c.t
  let c₁ := { c with t := c.t + 1 }
  match s.start with
  | none => (.raised .typeError, s, c₁)
  | some st =>
    if st + s.timeout < now then
      (.raised (.timeoutError (timeoutMsg s.timeout)), s.unlock, c₁)
    else
      (.ok, s, c₁)

/-- Inner id-drawing loop of `FileLocker.lock`:
`while self.__pathLocker is None or os.path.isfile(self.__pathLocker)`, draw a
random id and rebuild `pathLocker`.  Returns the handle with `id` and
`pathLocker` set, or `none` when fuel runs out. -/
def FileLocker.drawLoop (env : Env) : Nat → Cur → FileLocker →
    Option (FileLocker × Cur)
  | 0, _, _ => none
  | Nat.succ fuel, c, s =>
    match s.pathLocker with
    | none =>
      let i := env.rands c.r
      FileLocker.drawLoop env fuel { c with r := c.r + 1 }
        { s with id := (i : Int),
                 pathLocker := some (lockPath s.folder s.filename i) }
    | some _ =>
      let c₁ := { c with e := c.e + 1 }
      if env.candExists c.e then
        let i := env.rands c₁.r
        FileLocker.drawLoop env fuel { c₁ with r := c₁.r + 1 }
          { s with id := (i : Int),
                   pathLocker := some (lockPath s.folder s.filename i) }
      else
        some (s, c₁)

/-- Inner `while True` wait loop of `FileLocker.lock`: sleep (checking the
overall timeout), re-list tickets (triggering reaping), and if the minimum
listed counter equals this handle's id, clear `isLocked` and break
(acquisition); `min` of an empty listing raises `ValueError`. -/
def FileLocker.innerWait (env : Env) : Nat → Cur → FileLocker →
    Option (Outcome × FileLocker × Cur)
  | 0, _, _ => none
  | Nat.succ fuel, c, s =>
    match FileLocker.sleepStep env c s with
    | (.raised e, s₁, c₁) => some (.raised e, s₁, c₁)
    | (.ok, s₁, c₁) =>
      match FileLocker.getLockFileIds env.serverTime (env.dirs c₁.d) s₁ with
      | (ids, _, s₂) =>
        let c₂ := { c₁ with d := c₁.d + 1 }
        match ids.min? with
        | none => some (.raised .valueError, s₂, c₂)
        | some m =>
          if (m : Int) = s₂.id then
            some (.ok, { s₂ with isLocked := false }, c₂)
          else
            FileLocker.innerWait env fuel c₂ s₂

/-- Outer `while self.__isLocked` loop of `FileLocker.lock`: list tickets; if
none are listed, draw an id, create the ticket file (an `IOError` there is
re-raised as a generic `Exception` naming the path), and enter the inner wait
loop; if some are listed, sleep one interval (checking the timeout) and
retry. -/
def FileLocker.outerLoop (env : Env) : Nat → Cur → FileLocker →
    Option (Outcome × FileLocker × Cur)
  | 0, _, _ => none
  | Nat.succ fuel, c, s =>
    if s.isLocked = false then
      some (.ok, s, c)
    else
      match FileLocker.getLockFileIds env.serverTime (env.dirs c.d) s with
      | (ids, _, s₁) =>
        let c₁ := { c with d := c.d + 1 }
        if ids.isEmpty then
          match FileLocker.drawLoop env fuel c₁ s₁ with
          | none => none
          | some (s₂, c₂) =>
            if env.createFails then
              some (.raised (.genericError (createMsg (s₂.pathLocker.getD ""))),
                    s₂, c₂)
            else
              match FileLocker.innerWait env fuel c₂
                  { s₂ with ownTicketOnDisk := true } with
              | none => none
              | some (out, s₃, c₃) =>
                match out with
                | .ok => FileLocker.outerLoop env fuel c₃ s₃
                | .raised e => some (.raised e, s₃, c₃)
        else
          match FileLocker.sleepStep env c₁ s₁ with
          | (.ok, s₂, c₂) => FileLocker.outerLoop env fuel c₂ s₂
          | (.raised e, s₂, c₂) => some (.raised e, s₂, c₂)

/-- Method `FileLocker.lock`: raise `RuntimeError` if `isLocked` is already
set; otherwise add the handle to `INSTANCES_LOCKED`, record the start time,
set `isLocked`, and run the poll loop. -/
def FileLocker.lock (env : Env) (fuel : Nat) (c : Cur) (s : FileLocker) :
    Option (Outcome × FileLocker × Cur) :=
  if s.isLocked then
    some (.raised (.runtimeError "Locker already locked"), s, c)
  else
    let now := env.times c.t
    let c₁ := { c with t := c.t + 1 }
    FileLocker.outerLoop env fuel c₁
      { s with registered := true, start := some now, isLocked := true }

/-- Property `FileLocker.locked`. -/
def FileLocker.locked (s : FileLocker) : Bool :=
  s.isLocked

/-- Constructor `FileLocker.__init__` applied to the path
`os.path.join(folder, filename)` (with `filename` a plain base name, so
`os.path.split` of the absolute joined path gives back `(folder, filename)`).
`pathIsDir` is `os.path.isdir` of the joined path, `parentIsDir` is
`os.path.isdir` of the resulting folder. -/
def FileLocker.initAt (pathIsDir parentIsDir : Bool) (folder filename : String)
    (timeout : Int) : Except PyError FileLocker :=
  let fs := if pathIsDir then (folder ++ "/" ++ filename, "locker")
            else (folder, filename)
  if parentIsDir then
    Except.ok
      { timeout := timeout, folder := fs.1, filename := fs.2,
        pathLocker := none, id := -1, isLocked := false, start := none,
        serverTimeLockCache := none, registered := false,
        ownTicketOnDisk := false }
  else
    Except.error (.genericError (badPathMsg (folder ++ "/" ++ filename)))

/-- A `with FileLocker(...)` block around a pure body: construct the handle
(propagating a constructor error), `lock` it (propagating a raised error
without running the body, as `__enter__` failing skips `__exit__`), run the
body, and `unlock` on the way out whatever the body did.  Returns the body
result and the consumed cursor, or `none` when fuel runs out. -/
def withLocker {β : Type} (env : Env) (fuel : Nat) (c : Cur)
    (h : Except PyError FileLocker) (body : Except PyError β) :
    Option (Except PyError β × Cur) :=
  match h with
  | .error e => some (.error e, c)
  | .ok s =>
    match FileLocker.lock env fuel c s with
    | none => none
    | some (.raised e, _, c₁) => some (.error e, c₁)
    | some (.ok, s₁, c₁) =>
      let s₂ := s₁.unlock
      some (match s₂ with | _ => body, c₁)

/-- The callable produced by `FileLocker.wrapWithDecorator`: if a condition is
given and evaluates to false on the call arguments, call the method directly;
otherwise run the call under a `with` block over a freshly constructed
`FileLocker` on `os.path.join(self.__folder, self.__filename)` with the same
timeout. -/
def FileLocker.wrapper {α β : Type} (s : FileLocker)
    (condition : Option (α → Bool)) (method : α → Except PyError β)
    (pathIsDir parentIsDir : Bool) (env : Env) (fuel : Nat) (c : Cur)
    (a : α) : Option (Except PyError β × Cur) :=
  match condition with
  | some p =>
    if p a = false then
      some (method a, c)
    else
      withLocker env fuel c
        (FileLocker.initAt pathIsDir parentIsDir s.folder s.filename s.timeout)
        (method a)
  | none =>
    withLocker env fuel c
      (FileLocker.initAt pathIsDir parentIsDir s.folder s.filename s.timeout)
      (method a)

/-- Module-level `__unlockall` termination hook, applied to the process's
handles in iteration order.  A handle outside `INSTANCES_LOCKED`
(`registered = false`) is not visited and iteration of the set continues; a
visited handle whose `locked` property is unset is skipped and iteration
continues.  Releasing a visited handle calls `unlock`, which removes it from
the very `WeakSet` being iterated, so the next iterator step raises
`RuntimeError: Set changed size during iteration`; the hook's
`except RuntimeError: pass` swallows it, ending the sweep there — every
handle after the first released one is left untouched, and at most one
handle is released per sweep. -/
def unlockall : List FileLocker → List FileLocker
  | [] => []
  | h :: hs =>
    if h.registered then
      if h.locked then h.unlock :: hs
      else h :: unlockall hs
    else h :: unlockall hs

/-- Coherence of the two world projections: a handle with no recorded ticket
path has no ticket file on disk. -/
def Coh (s : FileLocker) : Prop :=
  s.pathLocker = none → s.ownTicketOnDisk = false

instance (s : FileLocker) : Decidable (Coh s) := by
  unfold Coh; infer_instance

/-- A freshly constructed handle on directory `"d"`, base name `"L"`,
timeout 5: `FileLocker("d/L", timeout=5)` with `"d/L"` not a directory and
`"d"` existing. -/
def fresh0 : FileLocker :=
  { timeout := 5, folder := "d", filename := "L", pathLocker := none,
    id := -1, isLocked := false, start := none, serverTimeLockCache := none,
    registered := false, ownTicketOnDisk := false }

/-- Initial oracle cursor. -/
def cur0 : Cur := { t := 0, d := 0, r := 0, e := 0 }

/-- Oracle for an uncontended acquisition: the first listing is empty, every
later listing shows only this handle's own ticket (counter 42, mtime 0), the
clock stays at 0, the drawn candidate name is free, and creation succeeds. -/
def envSolo : Env :=
  { times := fun _ => 0,
    dirs := fun n => if n = 0 then [] else [DirEntry.ticket 42 0 false],
    rands := fun _ => 42,
    candExists := fun _ => false,
    serverTime := 0,
    createFails := false }

/-- Handle state after the uncontended `lock()` in `envSolo` returns
successfully: ticket `"d/L.000042"` created and still on disk, handle
registered, and — inverted with respect to the documented lifecycle — the
`isLocked` flag cleared by the acquisition branch. -/
def postAcquire : FileLocker :=
  { timeout := 5, folder := "d", filename := "L",
    pathLocker := some "d/L.000042", id := 42, isLocked := false,
    start := some 0, serverTimeLockCache := some 0, registered := true,
    ownTicketOnDisk := true }

/-- Handle state after the uncontended `lock()` in `envSolo` has created its
ticket file, at the top of the inner wait loop (cursor `⟨1, 1, 1, 1⟩`). -/
def postCreate : FileLocker :=
  { timeout := 5, folder := "d", filename := "L",
    pathLocker := some "d/L.000042", id := 42, isLocked := true,
    start := some 0, serverTimeLockCache := none, registered := true,
    ownTicketOnDisk := true }

/-- Oracle for a second `lock()` call on `postAcquire`: every listing still
shows the handle's own ticket, the clock reads 10 then 16, so the second poll
exceeds the 5-second timeout. -/
def envSecond : Env :=
  { times := fun n => if n = 0 then 10 else 16,
    dirs := fun _ => [DirEntry.ticket 42 0 false],
    rands := fun _ => 0,
    candExists := fun _ => false,
    serverTime := 0,
    createFails := false }

/-- Handle state after the second `lock()` call on `postAcquire` under
`envSecond` raises `TimeoutError`: the timeout path ran `unlock`, removing the
handle from the registry and deleting the ticket file it was still holding. -/
def postSecond : FileLocker :=
  { timeout := 5, folder := "d", filename := "L",
    pathLocker := some "d/L.000042", id := 42, isLocked := true,
    start := some 10, serverTimeLockCache := some 0, registered := false,
    ownTicketOnDisk := false }

/-- Oracle identical to `envSolo` except that `open(pathLocker, "w")` raises
`IOError`. -/
def envCreateFail : Env :=
  { envSolo with createFails := true }

/-- Handle state after `lock()` under `envCreateFail` raises the generic
`Exception` that replaces the creation `IOError`: no ticket file exists, the
handle was never acquired, yet it is still registered and `isLocked` is still
set. -/
def postCreateFail : FileLocker :=
  { timeout := 5, folder := "d", filename := "L",
    pathLocker := some "d/L.000042", id := 42, isLocked := true,
    start := some 0, serverTimeLockCache := none, registered := true,
    ownTicketOnDisk := false }

/-- Oracle for a permanently blocked attempt: every listing shows a competing
ticket with counter 7 that never ages past the timeout, and the clock jumps
from 0 to 100 so the second poll exceeds the 5-second timeout. -/
def envBlocked : Env :=
  { times := fun n => if n = 0 then 0 else 100,
    dirs := fun _ => [DirEntry.ticket 7 0 false],
    rands := fun _ => 0,
    candExists := fun _ => false,
    serverTime := 0,
    createFails := false }

/-- Handle state after `lock()` under `envBlocked` raises `TimeoutError`: the
handle unregistered itself, never created a ticket, and `isLocked` was left
set by the timeout path. -/
def postTimeout : FileLocker :=
  { timeout := 5, folder := "d", filename := "L", pathLocker := none,
    id := -1, isLocked := true, start := some 0,
    serverTimeLockCache := some 0, registered := false,
    ownTicketOnDisk := false }

/-- Directory snapshot exercising the reaper: a young ticket, a stale ticket
(age 10 against timeout 5), a ticket whose per-file check raises `OSError`,
and a non-matching file. -/
def entriesB : List DirEntry :=
  [DirEntry.ticket 1 0 false, DirEntry.ticket 2 (-10) false,
   DirEntry.ticket 3 0 true, DirEntry.other "x"]

/-- Surviving entries after `__getLockFileIds` scans `entriesB` for `fresh0`
with reference clock 0: only the stale ticket is removed. -/
def remB : List DirEntry :=
  [DirEntry.ticket 1 0 false, DirEntry.ticket 3 0 true, DirEntry.other "x"]

theorem unlock_registered (s : FileLocker) : s.unlock.registered = false := by
  unfold FileLocker.unlock
  by_cases h : s.registered <;> simp [h] <;> split <;> simp [h]

theorem unlock_isLocked (s : FileLocker) : s.unlock.isLocked = s.isLocked := by
  unfold FileLocker.unlock
  by_cases h : s.registered <;> simp [h] <;> split <;> simp

theorem unlock_start (s : FileLocker) : s.unlock.start = s.start := by
  unfold FileLocker.unlock
  by_cases h : s.registered <;> simp [h] <;> split <;> simp

theorem unlock_timeout (s : FileLocker) : s.unlock.timeout = s.timeout := by
  unfold FileLocker.unlock
  by_cases h : s.registered <;> simp [h] <;> split <;> simp

theorem unlock_disk (s : FileLocker) (h : Coh s) :
    s.unlock.ownTicketOnDisk = false := by
  unfold FileLocker.unlock
  rcases hp : s.pathLocker with _ | p
  · have hd := h hp
    by_cases hr : s.registered <;> simp [hr, hp, hd]
  · by_cases hr : s.registered <;> by_cases hd : s.ownTicketOnDisk <;>
      simp [hr, hp, hd]

theorem unlock_coh (s : FileLocker) (h : Coh s) : Coh s.unlock :=
  fun _ => unlock_disk s h

/-- The `__sleep` step with `start` set either continues with the state
unchanged or unlocks the handle and raises `TimeoutError`; the cursor always
advances by one clock reading. -/
theorem sleepStep_cases (env : Env) (c : Cur) (s : FileLocker)
    (hst : s.start.isSome = true) :
    FileLocker.sleepStep env c s = (Outcome.ok, s, { c with t := c.t + 1 }) ∨
    FileLocker.sleepStep env c s =
      (Outcome.raised (PyError.timeoutError (timeoutMsg s.timeout)), s.unlock,
       { c with t := c.t + 1 }) := by
  rcases hs : s.start with _ | st
  · rw [hs] at hst; simp at hst
  · by_cases hlt : st + s.timeout < env.times c.t
    · right; simp [FileLocker.sleepStep, hs, hlt]
    · left; simp [FileLocker.sleepStep, hs, hlt]

/-- A listing changes nothing of the handle except (possibly) the reference
clock cache. -/
theorem getLockFileIds_state (fresh : Int) (entries : List DirEntry)
    (s : FileLocker) (ids : List Nat) (rem : List DirEntry) (s' : FileLocker)
    (h : FileLocker.getLockFileIds fresh entries s = (ids, rem, s')) :
    s' = s ∨ s' = { s with serverTimeLockCache := some fresh } := by
  unfold FileLocker.getLockFileIds at h
  by_cases he : (ticketsOf entries).isEmpty
  · simp [he] at h
    left; exact h.2.2.symm
  · rcases hc : s.serverTimeLockCache with _ | v
    · simp [he, FileLocker.serverTimeLock, hc] at h
      right; exact h.2.2.symm
    · simp [he, FileLocker.serverTimeLock, hc] at h
      left; exact h.2.2.symm

/-- The id-drawing loop only assigns `id` and `pathLocker`; on success
`pathLocker` is set. -/
theorem drawLoop_inv (env : Env) : ∀ (fuel : Nat) (c : Cur) (s s' : FileLocker)
    (c' : Cur), FileLocker.drawLoop env fuel c s = some (s', c') →
    s'.pathLocker.isSome = true ∧ s'.registered = s.registered ∧
    s'.start = s.start ∧ s'.isLocked = s.isLocked ∧
    s'.ownTicketOnDisk = s.ownTicketOnDisk ∧ s'.timeout = s.timeout ∧
    s'.folder = s.folder ∧ s'.filename = s.filename := by
  intro fuel
  induction fuel with
  | zero => intro c s s' c' h; simp [FileLocker.drawLoop] at h
  | succ n ih =>
    intro c s s' c' h
    rcases hp : s.pathLocker with _ | p
    · simp only [FileLocker.drawLoop, hp] at h
      have hf := ih _ _ _ _ h
      simpa using hf
    · simp only [FileLocker.drawLoop, hp] at h
      cases hc : env.candExists c.e
      · simp only [hc, Bool.false_eq_true, if_false, Option.some.injEq,
          Prod.mk.injEq] at h
        obtain ⟨h1, h2⟩ := h
        subst h1
        simp [hp]
      · simp only [hc, if_true] at h
        have hf := ih _ _ _ _ h
        simpa using hf

/-- Invariant of the inner wait loop: `start` and `timeout` are preserved and
coherence is maintained; on normal exit `isLocked` has been cleared and
registration is unchanged; a raised `TimeoutError` leaves the handle
unregistered with its ticket file deleted (the timeout path ran `unlock`),
and any outcome other than a timeout leaves registration unchanged. -/
theorem innerWait_inv (env : Env) : ∀ (fuel : Nat) (c : Cur) (s : FileLocker)
    (out : Outcome) (s₂ : FileLocker) (c₂ : Cur),
    FileLocker.innerWait env fuel c s = some (out, s₂, c₂) →
    s.start.isSome = true →
    (s₂.start = s.start ∧ s₂.timeout = s.timeout ∧ (Coh s → Coh s₂)) ∧
    (out = Outcome.ok → s₂.isLocked = false ∧ s₂.registered = s.registered) ∧
    (Outcome.isTimeout out = true →
       s₂.isLocked = s.isLocked ∧ s₂.registered = false ∧
       (Coh s → s₂.ownTicketOnDisk = false)) ∧
    (Outcome.isTimeout out = false → s₂.registered = s.registered) := by
  intro fuel
  induction fuel with
  | zero => intro c s out s₂ c₂ h _; simp [FileLocker.innerWait] at h
  | succ n ih =>
    intro c s out s₂ c₂ h hst
    rcases sleepStep_cases env c s hst with hs | hs
    · simp only [FileLocker.innerWait, hs] at h
      rcases hg : FileLocker.getLockFileIds env.serverTime (env.dirs c.d) s
        with ⟨ids, rem, s₁⟩
      simp only [hg] at h
      have hfields := getLockFileIds_state env.serverTime (env.dirs c.d) s
        ids rem s₁ hg
      have hreg₁ : s₁.registered = s.registered := by
        rcases hfields with h1 | h1 <;> subst h1 <;> simp
      have hst₁ : s₁.start = s.start := by
        rcases hfields with h1 | h1 <;> subst h1 <;> simp
      have hlk₁ : s₁.isLocked = s.isLocked := by
        rcases hfields with h1 | h1 <;> subst h1 <;> simp
      have hto₁ : s₁.timeout = s.timeout := by
        rcases hfields with h1 | h1 <;> subst h1 <;> simp
      have hcoh₁ : Coh s → Coh s₁ := by
        rcases hfields with h1 | h1 <;> subst h1 <;> simp [Coh]
      rcases hm : ids.min? with _ | m
      · simp only [hm, Option.some.injEq, Prod.mk.injEq] at h
        obtain ⟨ho, h2, h3⟩ := h
        subst ho; subst h2
        refine ⟨⟨hst₁, hto₁, hcoh₁⟩, ?_, ?_, fun _ => hreg₁⟩
        · intro hk; simp at hk
        · intro hk; simp [Outcome.isTimeout] at hk
      · simp only [hm] at h
        by_cases hid : (m : Int) = s₁.id
        · rw [if_pos hid] at h
          simp only [Option.some.injEq, Prod.mk.injEq] at h
          obtain ⟨ho, h2, h3⟩ := h
          subst ho; subst h2
          refine ⟨⟨by simpa using hst₁, by simpa using hto₁, ?_⟩,
            fun _ => ⟨by simp, by simpa using hreg₁⟩, ?_, fun _ => by
              simpa using hreg₁⟩
          · intro hc hpn
            have := hcoh₁ hc
            exact this (by simpa using hpn)
          · intro hk; simp [Outcome.isTimeout] at hk
        · rw [if_neg hid] at h
          have hrec := ih _ _ _ _ _ h (by rw [hst₁]; exact hst)
          obtain ⟨⟨ha1, ha2, ha3⟩, hb, hc, hd⟩ := hrec
          refine ⟨⟨ha1.trans hst₁, ha2.trans hto₁, fun hcs => ha3 (hcoh₁ hcs)⟩,
            ?_, ?_, ?_⟩
          · intro ho
            obtain ⟨h1, h2⟩ := hb ho
            exact ⟨h1, h2.trans hreg₁⟩
          · intro ht
            obtain ⟨h1, h2, h3⟩ := hc ht
            exact ⟨h1.trans hlk₁, h2, fun hcs => h3 (hcoh₁ hcs)⟩
          · intro ht
            exact (hd ht).trans hreg₁
    · simp only [FileLocker.innerWait, hs, Option.some.injEq,
        Prod.mk.injEq] at h
      obtain ⟨ho, h2, h3⟩ := h
      subst ho; subst h2
      refine ⟨⟨unlock_start s, unlock_timeout s, unlock_coh s⟩, ?_,
        fun _ => ⟨unlock_isLocked s, unlock_registered s, fun hc =>
          unlock_disk s hc⟩, ?_⟩
      · intro hk; simp at hk
      · intro ht; simp [Outcome.isTimeout] at ht

/-- Invariant of the outer poll loop: starting from a registered handle whose
`start` is set, a normal return has `isLocked` cleared and the handle still
registered; a raised `TimeoutError` leaves `isLocked` set, the handle
unregistered and its ticket file deleted; any other outcome leaves the handle
registered. -/
theorem outerLoop_inv (env : Env) : ∀ (fuel : Nat) (c : Cur) (s : FileLocker)
    (out : Outcome) (s₂ : FileLocker) (c₂ : Cur),
    FileLocker.outerLoop env fuel c s = some (out, s₂, c₂) →
    s.start.isSome = true → s.registered = true →
    (out = Outcome.ok → s₂.isLocked = false ∧ s₂.registered = true) ∧
    (Outcome.isTimeout out = true →
       s₂.isLocked = true ∧ s₂.registered = false ∧
       (Coh s → s₂.ownTicketOnDisk = false)) ∧
    (Outcome.isTimeout out = false → s₂.registered = true) := by
  intro fuel
  induction fuel with
  | zero => intro c s out s₂ c₂ h _ _; simp [FileLocker.outerLoop] at h
  | succ n ih =>
    intro c s out s₂ c₂ h hst hreg
    by_cases hL : s.isLocked = false
    · simp only [FileLocker.outerLoop] at h
      rw [if_pos hL] at h
      simp only [Option.some.injEq, Prod.mk.injEq] at h
      obtain ⟨ho, h2, h3⟩ := h
      subst ho; subst h2
      refine ⟨fun _ => ⟨hL, hreg⟩, ?_, fun _ => hreg⟩
      intro ht; simp [Outcome.isTimeout] at ht
    · have hLt : s.isLocked = true := by rwa [Bool.not_eq_false] at hL
      simp only [FileLocker.outerLoop] at h
      rw [if_neg hL] at h
      rcases hg : FileLocker.getLockFileIds env.serverTime (env.dirs c.d) s
        with ⟨ids, rem, s₁⟩
      simp only [hg] at h
      have hfields := getLockFileIds_state env.serverTime (env.dirs c.d) s
        ids rem s₁ hg
      have hreg₁ : s₁.registered = s.registered := by
        rcases hfields with h1 | h1 <;> subst h1 <;> simp
      have hst₁ : s₁.start = s.start := by
        rcases hfields with h1 | h1 <;> subst h1 <;> simp
      have hlk₁ : s₁.isLocked = s.isLocked := by
        rcases hfields with h1 | h1 <;> subst h1 <;> simp
      have hcoh₁ : Coh s → Coh s₁ := by
        rcases hfields with h1 | h1 <;> subst h1 <;> simp [Coh]
      have hstS₁ : s₁.start.isSome = true := by rw [hst₁]; exact hst
      have hregT₁ : s₁.registered = true := by rw [hreg₁]; exact hreg
      cases hE : ids.isEmpty
      · simp only [hE, Bool.false_eq_true, if_false] at h
        rcases sleepStep_cases env { c with d := c.d + 1 } s₁ hstS₁
          with hsl | hsl
        · simp only [hsl] at h
          have hrec := ih _ _ _ _ _ h hstS₁ hregT₁
          refine ⟨hrec.1, ?_, hrec.2.2⟩
          intro ht
          obtain ⟨h1, h2, h3⟩ := hrec.2.1 ht
          exact ⟨h1, h2, fun hc => h3 (hcoh₁ hc)⟩
        · simp only [hsl, Option.some.injEq, Prod.mk.injEq] at h
          obtain ⟨ho, h2, h3⟩ := h
          subst ho; subst h2
          refine ⟨?_, fun _ => ⟨(unlock_isLocked s₁).trans (hlk₁.trans hLt),
            unlock_registered s₁, fun hc => unlock_disk s₁ (hcoh₁ hc)⟩, ?_⟩
          · intro hk; simp at hk
          · intro ht; simp [Outcome.isTimeout] at ht
      · simp only [hE, if_true] at h
        rcases hd : FileLocker.drawLoop env n { c with d := c.d + 1 } s₁
          with _ | ⟨s₃, c₃⟩
        · simp only [hd] at h; simp at h
        · simp only [hd] at h
          have hdi := drawLoop_inv env n _ s₁ s₃ c₃ hd
          cases hcf : env.createFails
          · simp only [hcf, Bool.false_eq_true, if_false] at h
            rcases hw : FileLocker.innerWait env n c₃
                { s₃ with ownTicketOnDisk := true } with _ | ⟨out₄, s₄, c₄⟩
            · simp only [hw] at h; simp at h
            · simp only [hw] at h
              have hstIn : ({ s₃ with ownTicketOnDisk := true } :
                  FileLocker).start.isSome = true := by
                simp [hdi.2.2.1, hstS₁]
              have hcohIn : Coh { s₃ with ownTicketOnDisk := true } := by
                intro hpn
                have := hdi.1
                rw [show s₃.pathLocker =
                  ({ s₃ with ownTicketOnDisk := true } :
                    FileLocker).pathLocker from rfl, hpn] at this
                simp at this
              have hregIn : ({ s₃ with ownTicketOnDisk := true } :
                  FileLocker).registered = true := by
                simp [hdi.2.1, hregT₁]
              have hin := innerWait_inv env n c₃
                { s₃ with ownTicketOnDisk := true } out₄ s₄ c₄ hw hstIn
              cases out₄
              · have hrec := ih _ _ _ _ _ h
                  (by rw [hin.1.1]; exact hstIn)
                  (by rw [(hin.2.1 rfl).2]; exact hregIn)
                refine ⟨hrec.1, ?_, hrec.2.2⟩
                intro ht
                obtain ⟨h1, h2, h3⟩ := hrec.2.1 ht
                exact ⟨h1, h2, fun _ => h3 (hin.1.2.2 hcohIn)⟩
              · next e =>
                simp only [Option.some.injEq, Prod.mk.injEq] at h
                obtain ⟨ho, h2, h3⟩ := h
                subst ho; subst h2
                refine ⟨?_, ?_, ?_⟩
                · intro hk; simp at hk
                · intro ht
                  obtain ⟨h1, h2, h3⟩ := hin.2.2.1 ht
                  refine ⟨?_, h2, fun _ => h3 hcohIn⟩
                  rw [h1]
                  show s₃.isLocked = true
                  rw [hdi.2.2.2.1, hlk₁, hLt]
                · intro ht
                  rw [hin.2.2.2 ht]
                  exact hregIn
          · simp only [hcf, if_true, Option.some.injEq, Prod.mk.injEq] at h
            obtain ⟨ho, h2, h3⟩ := h
            subst ho; subst h2
            refine ⟨?_, ?_, ?_⟩
            · intro hk; simp at hk
            · intro ht; simp [Outcome.isTimeout] at ht
            · intro ht
              rw [hdi.2.1]
              exact hregT₁

/-- C1: once a handle has created its ticket, an iteration of the inner wait
loop acquires — clears `isLocked` and delivers success — exactly when the
minimum counter among the tickets returned by that iteration's listing equals
the handle's own id; when the minimum differs (in particular whenever a
strictly smaller counter is present, so of two distinct-id tickets only the
numerically lower one can acquire) the handle keeps waiting, the loop
recursing unchanged; and once `isLocked` is cleared the outer loop returns
success. -/
theorem c1_acquire_iff_min (env : Env) (fuel : Nat) (c c₁ : Cur)
    (s s₁ : FileLocker) (ids : List Nat) (rem : List DirEntry)
    (s₂ : FileLocker) (m : Nat)
    (hsleep : FileLocker.sleepStep env c s = (Outcome.ok, s₁, c₁))
    (hlist : FileLocker.getLockFileIds env.serverTime (env.dirs c₁.d) s₁ =
      (ids, rem, s₂))
    (hmin : ids.min? = some m) :
    ((m : Int) = s₂.id →
      FileLocker.innerWait env (fuel + 1) c s =
        some (Outcome.ok, { s₂ with isLocked := false },
          { c₁ with d := c₁.d + 1 })) ∧
    ((m : Int) ≠ s₂.id →
      FileLocker.innerWait env (fuel + 1) c s =
        FileLocker.innerWait env fuel { c₁ with d := c₁.d + 1 } s₂) ∧
    (∀ a b : Nat, a ∈ ids → b ∈ ids → a < b → (b : Int) = s₂.id →
      FileLocker.innerWait env (fuel + 1) c s =
        FileLocker.innerWait env fuel { c₁ with d := c₁.d + 1 } s₂) ∧
    (∀ (f : Nat) (c₃ : Cur) (s₃ : FileLocker), s₃.isLocked = false →
      FileLocker.outerLoop env (f + 1) c₃ s₃ = some (Outcome.ok, s₃, c₃)) := by
  refine ⟨?_, ?_, ?_, ?_⟩
  · intro hid
    simp only [FileLocker.innerWait, hsleep, hlist, hmin]
    rw [if_pos hid]
  · intro hid
    simp only [FileLocker.innerWait, hsleep, hlist, hmin]
    rw [if_neg hid]
  · intro a b ha hb hab hbid
    have hma : m ≤ a := (List.min?_eq_some_iff'.mp hmin).2 a ha
    have hne : (m : Int) ≠ s₂.id := by
      rw [← hbid]
      intro hcon
      have hmb : m = b := by exact_mod_cast hcon
      omega
    simp only [FileLocker.innerWait, hsleep, hlist, hmin]
    rw [if_neg hne]
  · intro f c₃ s₃ h₃
    simp only [FileLocker.outerLoop]
    rw [if_pos h₃]

/-- C1 witness: the uncontended handle `postCreate`, whose own ticket 42 is
the only one listed, acquires on the very next iteration of the inner wait
loop. -/
theorem c1_acquire_iff_min_witness :
    FileLocker.innerWait envSolo 1 ⟨1, 1, 1, 1⟩ postCreate =
      some (Outcome.ok, postAcquire, ⟨2, 2, 1, 1⟩) := by
  have H := c1_acquire_iff_min envSolo 0 ⟨1, 1, 1, 1⟩ ⟨2, 1, 1, 1⟩ postCreate
    postCreate [42] [DirEntry.ticket 42 0 false]
    { postCreate with serverTimeLockCache := some 0 } 42 rfl rfl rfl
  exact H.1 rfl

/-- C2: one listing via `__getLockFileIds` computes each matched ticket's age
as the cached reference-clock reading minus its mtime and deletes it exactly
when that age strictly exceeds the handle's timeout; a matched file whose
per-file check raises `OSError` is kept and the error swallowed (the listing
is total by construction, so nothing surfaces to the caller); when the
reference clock is already cached the cached value is the one used; and the
counters of all matched files, deleted or not, are returned. -/
theorem c2_reap_exact (fresh : Int) (entries : List DirEntry) (s : FileLocker)
    (ids : List Nat) (rem : List DirEntry) (s' : FileLocker)
    (h : FileLocker.getLockFileIds fresh entries s = (ids, rem, s')) :
    (∀ i m, DirEntry.ticket i m false ∈ entries →
       (DirEntry.ticket i m false ∈ rem ↔
         ¬ s.timeout < (FileLocker.serverTimeLock fresh s).1 - m)) ∧
    (∀ i m, DirEntry.ticket i m true ∈ entries →
       DirEntry.ticket i m true ∈ rem) ∧
    (∀ v, s.serverTimeLockCache = some v →
       (FileLocker.serverTimeLock fresh s).1 = v) ∧
    (∀ i m oe, DirEntry.ticket i m oe ∈ entries → i ∈ ids) := by
  simp only [FileLocker.getLockFileIds] at h
  cases hE : (ticketsOf entries).isEmpty
  · simp only [hE, Bool.false_eq_true, if_false, Prod.mk.injEq] at h
    obtain ⟨hids, hrem, hs'⟩ := h
    subst hids; subst hrem
    refine ⟨?_, ?_, ?_, ?_⟩
    · intro i m hm
      simp [List.mem_filter, hm, reapedB]
    · intro i m hm
      simp [List.mem_filter, hm, reapedB]
    · intro v hv
      simp [FileLocker.serverTimeLock, hv]
    · intro i m oe hm
      exact List.mem_map.mpr ⟨(i, m, oe),
        List.mem_filterMap.mpr ⟨DirEntry.ticket i m oe, hm, rfl⟩, rfl⟩
  · simp only [hE, if_true, Prod.mk.injEq] at h
    obtain ⟨hids, hrem, hs'⟩ := h
    subst hids; subst hrem
    have hnone : ∀ i m oe, DirEntry.ticket i m oe ∉ entries := by
      intro i m oe hmem
      have hticket : (i, m, oe) ∈ ticketsOf entries :=
        List.mem_filterMap.mpr ⟨DirEntry.ticket i m oe, hmem, rfl⟩
      rw [List.isEmpty_iff] at hE
      rw [hE] at hticket
      simp at hticket
    exact ⟨fun i m hm => absurd hm (hnone i m false),
      fun i m hm => absurd hm (hnone i m true),
      fun v hv => by simp [FileLocker.serverTimeLock, hv],
      fun i m oe hm => absurd hm (hnone i m oe)⟩

/-- C2 witness: scanning `entriesB` with reference clock 0 and timeout 5
deletes exactly the stale ticket 2 (age 10), keeps the young ticket 1 and the
`OSError` ticket 3, and reports all three counters. -/
theorem c2_reap_exact_witness :
    DirEntry.ticket 2 (-10) false ∉ remB ∧
    DirEntry.ticket 1 0 false ∈ remB ∧
    DirEntry.ticket 3 0 true ∈ remB ∧ (2 : Nat) ∈ ([1, 2, 3] : List Nat) := by
  have H := c2_reap_exact 0 entriesB fresh0 [1, 2, 3] remB
    { fresh0 with serverTimeLockCache := some 0 } rfl
  refine ⟨?_, ?_, ?_, ?_⟩
  · intro hmem
    exact (H.1 2 (-10) (by decide)).mp hmem (by decide)
  · exact (H.1 1 0 (by decide)).mpr (by decide)
  · exact H.2.1 3 0 (by decide)
  · exact H.2.2.2 2 (-10) false (by decide)

/-- C3: whenever `lock()` raises a `TimeoutError`, the handle has already
released itself before the error propagates: it is no longer in the process
registry and no ticket file of its own remains on disk (the timeout path runs
`unlock`, which deletes the ticket if one was created, before raising), and
the call terminates with the error rather than retrying. -/
theorem c3_timeout_cleanup (env : Env) (fuel : Nat) (c : Cur) (s : FileLocker)
    (msg : String) (s' : FileLocker) (c' : Cur)
    (hcoh : Coh s)
    (h : FileLocker.lock env fuel c s =
      some (Outcome.raised (PyError.timeoutError msg), s', c')) :
    s'.registered = false ∧ s'.ownTicketOnDisk = false := by
  unfold FileLocker.lock at h
  by_cases hL : s.isLocked = true
  · rw [if_pos hL] at h
    simp at h
  · rw [if_neg hL] at h
    have hout := outerLoop_inv env fuel _ _ _ _ _ h (by simp) (by simp)
    have ht := hout.2.1 (by simp [Outcome.isTimeout])
    exact ⟨ht.2.1, ht.2.2 (fun hpn => hcoh hpn)⟩

/-- C3 witness: the handle blocked forever behind ticket 7 under `envBlocked`
times out and ends deregistered with no ticket file of its own. -/
theorem c3_timeout_cleanup_witness :
    postTimeout.registered = false ∧ postTimeout.ownTicketOnDisk = false :=
  c3_timeout_cleanup envBlocked 5 cur0 fresh0 (timeoutMsg 5) postTimeout
    ⟨2, 1, 0, 0⟩ (by decide) rfl

/-- C4 (code evaluated at the failing input): calling `lock()` a second time
on `postAcquire` — a handle whose first `lock()` succeeded and which was not
unlocked — does not fail with the `RuntimeError` state error and does not
leave the filesystem untouched: because acquisition cleared `__isLocked`, the
guard does not fire, so the second call performs a fresh listing (the listing
cursor advances), blocks, raises `TimeoutError`, and its timeout path even
deletes the ticket file the handle was still holding. -/
theorem c4_second_lock_not_state_error :
    FileLocker.lock envSecond 5 cur0 postAcquire =
      some (Outcome.raised (PyError.timeoutError (timeoutMsg 5)), postSecond,
        ⟨2, 1, 0, 0⟩) ∧
    PyError.timeoutError (timeoutMsg 5) ≠
      PyError.runtimeError "Locker already locked" ∧
    postSecond.ownTicketOnDisk = false ∧
    (⟨2, 1, 0, 0⟩ : Cur).d ≠ cur0.d :=
  ⟨rfl, by decide, rfl, by decide⟩

/-- C5 (code evaluated at the failing input): an uncontended `lock()` under
`envSolo` succeeds, yet immediately afterwards — in what the spec calls the
Acquired phase — the `locked` property reads false, because the acquisition
branch clears `__isLocked`; before `lock()` it reads false as the claim
says. -/
theorem c5_locked_false_after_success :
    FileLocker.lock envSolo 5 cur0 fresh0 =
      some (Outcome.ok, postAcquire, ⟨2, 2, 1, 1⟩) ∧
    postAcquire.locked = false ∧ fresh0.locked = false :=
  ⟨rfl, rfl, rfl⟩

/-- C6 (counterexample): under `envCreateFail` the ticket-creation failure
makes `lock()` raise without ever acquiring, yet the handle is a member of
`INSTANCES_LOCKED` — it was added at the start of `lock()`, before any
acquisition, and is still registered after the raise — so the registry does
not hold exactly the handles in Acquired state, and population does not
happen on successful acquisition. -/
theorem c6_registered_without_acquisition :
    FileLocker.lock envCreateFail 5 cur0 fresh0 =
      some (Outcome.raised (PyError.genericError (createMsg "d/L.000042")),
        postCreateFail, ⟨1, 1, 1, 1⟩) ∧
    postCreateFail.registered = true :=
  ⟨rfl, rfl⟩

/-- C6 (amended): a handle joins the process registry at the start of every
`lock()` call — before any acquisition — and stays registered whatever the
outcome except a timeout, whose self-`unlock` removes it; `unlock` always
removes the handle from the registry; and the exit hook walks the registry
skipping handles whose `locked` flag is unset, force-releases the first
registered handle whose flag is set, and then stops — the release mutates
the weak set mid-iteration and the resulting `RuntimeError` is swallowed, so
every sweep releases at most one handle and leaves all later handles
untouched: either no handle qualifies and the sweep changes nothing, or the
registry splits around a first qualifying handle which alone is released. -/
theorem c6_registry_lifecycle (env : Env) (fuel : Nat) (c : Cur)
    (s : FileLocker) (out : Outcome) (s' : FileLocker) (c' : Cur)
    (hnl : s.isLocked = false)
    (h : FileLocker.lock env fuel c s = some (out, s', c')) :
    (s'.registered = true ↔ Outcome.isTimeout out = false) ∧
    (∀ u : FileLocker, u.unlock.registered = false) ∧
    (∀ (u : FileLocker) (hs : List FileLocker), u.registered = true →
      u.locked = true → unlockall (u :: hs) = u.unlock :: hs) ∧
    (∀ (u : FileLocker) (hs : List FileLocker),
      u.registered = false ∨ u.locked = false →
      unlockall (u :: hs) = u :: unlockall hs) ∧
    (∀ hs : List FileLocker,
      ((∀ v ∈ hs, v.registered = false ∨ v.locked = false) ∧
        unlockall hs = hs) ∨
      (∃ pre u post, hs = pre ++ u :: post ∧
        (∀ v ∈ pre, v.registered = false ∨ v.locked = false) ∧
        u.registered = true ∧ u.locked = true ∧
        unlockall hs = pre ++ u.unlock :: post)) := by
  unfold FileLocker.lock at h
  rw [if_neg (by simp [hnl])] at h
  have hout := outerLoop_inv env fuel _ _ _ _ _ h (by simp) (by simp)
  refine ⟨⟨?_, ?_⟩, unlock_registered, ?_, ?_, ?_⟩
  · intro hr
    cases hti : Outcome.isTimeout out
    · rfl
    · have hfalse := (hout.2.1 hti).2.1
      rw [hfalse] at hr
      cases hr
  · intro hti
    exact hout.2.2 hti
  · intro u hs h1 h2
    simp [unlockall, h1, h2]
  · intro u hs hu
    rcases hu with h1 | h1 <;> simp [unlockall, h1]
  · intro hs
    induction hs with
    | nil => exact Or.inl ⟨by simp, rfl⟩
    | cons v vs ih =>
      by_cases hq : v.registered = true ∧ v.locked = true
      · refine Or.inr ⟨[], v, vs, rfl, by simp, hq.1, hq.2, ?_⟩
        simp [unlockall, hq.1, hq.2]
      · have hv : v.registered = false ∨ v.locked = false := by
          cases h1 : v.registered
          · exact Or.inl rfl
          · cases h2 : v.locked
            · exact Or.inr rfl
            · exact absurd ⟨h1, h2⟩ hq
        have hstep : unlockall (v :: vs) = v :: unlockall vs := by
          rcases hv with h1 | h1 <;> simp [unlockall, h1]
        rcases ih with ⟨hall, heq⟩ |
          ⟨pre, u, post, hsplit, hpre, hu1, hu2, heq⟩
        · left
          refine ⟨?_, by rw [hstep, heq]⟩
          intro w hw
          rcases List.mem_cons.mp hw with hw | hw
          · subst hw; exact hv
          · exact hall w hw
        · right
          refine ⟨v :: pre, u, post, by rw [hsplit]; rfl, ?_, hu1, hu2, ?_⟩
          · intro w hw
            rcases List.mem_cons.mp hw with hw | hw
            · subst hw; exact hv
            · exact hpre w hw
          · rw [hstep, heq]
            rfl

/-- C6 witness: the creation-failure handle is registered though never
acquired, and a sweep over a two-element registry of such
registered-and-locked handles releases only the first one, the swallowed
`RuntimeError` aborting the iteration before the second. -/
theorem c6_registry_lifecycle_witness :
    postCreateFail.registered = true ∧
    unlockall [postCreateFail, postCreateFail] =
      [postCreateFail.unlock, postCreateFail] := by
  have H := c6_registry_lifecycle envCreateFail 5 cur0 fresh0
    (Outcome.raised (PyError.genericError (createMsg "d/L.000042")))
    postCreateFail ⟨1, 1, 1, 1⟩ rfl rfl
  exact ⟨H.1.mpr rfl, H.2.2.1 postCreateFail [postCreateFail] rfl rfl⟩

/-- C7 (counterexample): when ticket creation raises `IOError`, the exception
surfaced by `lock()` is not that `IOError` surfaced unmodified but a newly
constructed generic `Exception` naming the lock file path. -/
theorem c7_create_error_wrapped :
    FileLocker.lock envCreateFail 5 cur0 fresh0 =
      some (Outcome.raised (PyError.genericError (createMsg "d/L.000042")),
        postCreateFail, ⟨1, 1, 1, 1⟩) ∧
    PyError.genericError (createMsg "d/L.000042") ≠ PyError.ioError :=
  ⟨rfl, by decide⟩

/-- C7 (amended): when creating the ticket file raises an `IOError`, the
attempt is aborted without any retry of the creation, and the error surfaced
to the caller is a new generic `Exception` whose message names the lock file
path (replacing the original `IOError`). -/
theorem c7_create_error_generic (env : Env) (m : Nat) (c : Cur)
    (s : FileLocker) (hnl : s.isLocked = false) (hpl : s.pathLocker = none)
    (hfail : env.createFails = true)
    (hempty : ticketsOf (env.dirs c.d) = [])
    (hcand : env.candExists c.e = false) :
    FileLocker.lock env (m + 3) c s =
      some (Outcome.raised (PyError.genericError
          (createMsg (lockPath s.folder s.filename (env.rands c.r)))),
        { s with
          registered := true
          start := some (env.times c.t)
          isLocked := true
          id := ((env.rands c.r : Nat) : Int)
          pathLocker := some (lockPath s.folder s.filename (env.rands c.r)) },
        { c with
          t := c.t + 1
          d := c.d + 1
          r := c.r + 1
          e := c.e + 1 }) := by
  have hg : FileLocker.getLockFileIds env.serverTime (env.dirs c.d)
      { s with
        registered := true
        start := some (env.times c.t)
        isLocked := true } =
      ([], env.dirs c.d,
       { s with
         registered := true
         start := some (env.times c.t)
         isLocked := true }) := by
    simp [FileLocker.getLockFileIds, hempty]
  have hd : FileLocker.drawLoop env (m + 2)
      { c with t := c.t + 1, d := c.d + 1 }
      { s with
        registered := true
        start := some (env.times c.t)
        isLocked := true } =
      some ({ s with
              registered := true
              start := some (env.times c.t)
              isLocked := true
              id := ((env.rands c.r : Nat) : Int)
              pathLocker := some (lockPath s.folder s.filename
                (env.rands c.r)) },
            { c with
              t := c.t + 1
              d := c.d + 1
              r := c.r + 1
              e := c.e + 1 }) := by
    show FileLocker.drawLoop env ((m + 1) + 1) _ _ = _
    simp only [FileLocker.drawLoop, hpl]
    rw [hcand]
    simp
  unfold FileLocker.lock
  rw [if_neg (by simp [hnl])]
  show FileLocker.outerLoop env ((m + 2) + 1) _ _ = _
  simp only [FileLocker.outerLoop]
  rw [if_neg (by simp)]
  simp only [hg, List.isEmpty_nil, if_true, hd, hfail]
  simp

/-- C7 witness: the amended behaviour evaluated on the concrete
`envCreateFail` run. -/
theorem c7_create_error_generic_witness :
    FileLocker.lock envCreateFail 5 cur0 fresh0 =
      some (Outcome.raised (PyError.genericError (createMsg "d/L.000042")),
        postCreateFail, ⟨1, 1, 1, 1⟩) :=
  c7_create_error_generic envCreateFail 2 cur0 fresh0 rfl rfl rfl rfl rfl

/-- C8: the callable produced by `wrapWithDecorator` first evaluates the
condition on the call's arguments: if it is false, the original callable is
invoked directly — same result, including any raised error, with no handle
constructed and no lock-world effect (the oracle cursor comes back untouched,
so no ticket file is created); if it is true, or no condition was given, the
call runs under a `with` block on a freshly constructed handle over the same
folder, base filename and timeout, whose construction is also
characterised. -/
theorem c8_wrapper_behavior {α β : Type} (s : FileLocker) (p : α → Bool)
    (method : α → Except PyError β) (pd pr : Bool) (env : Env) (fuel : Nat)
    (c : Cur) (a : α) :
    (p a = false →
      FileLocker.wrapper s (some p) method pd pr env fuel c a =
        some (method a, c)) ∧
    (p a = true →
      FileLocker.wrapper s (some p) method pd pr env fuel c a =
        withLocker env fuel c
          (FileLocker.initAt pd pr s.folder s.filename s.timeout)
          (method a)) ∧
    (FileLocker.wrapper s none method pd pr env fuel c a =
      withLocker env fuel c
        (FileLocker.initAt pd pr s.folder s.filename s.timeout)
        (method a)) ∧
    (FileLocker.initAt false true s.folder s.filename s.timeout =
      Except.ok { timeout := s.timeout
                  folder := s.folder
                  filename := s.filename
                  pathLocker := none
                  id := -1
                  isLocked := false
                  start := none
                  serverTimeLockCache := none
                  registered := false
                  ownTicketOnDisk := false }) := by
  refine ⟨?_, ?_, rfl, by simp [FileLocker.initAt]⟩
  · intro hp
    simp [FileLocker.wrapper, hp]
  · intro hp
    simp [FileLocker.wrapper, hp]

/-- C8 witness: a wrapped increment with an always-false condition on
argument 3 returns exactly the original result with the lock world
untouched. -/
theorem c8_wrapper_behavior_witness :
    FileLocker.wrapper fresh0 (some fun n : Nat => decide (n = 0))
      (fun n : Nat => (Except.ok (n + 1) : Except PyError Nat))
      false true envSolo 5 cur0 3 = some (Except.ok 4, cur0) :=
  (c8_wrapper_behavior fresh0 (fun n : Nat => decide (n = 0))
    (fun n : Nat => (Except.ok (n + 1) : Except PyError Nat))
    false true envSolo 5 cur0 3).1 (by decide)

/-- C9: the reference-clock reading of a handle is computed at most once and
then cached for the handle's lifetime: after one evaluation of the
`_serverTimeLock` property, every further evaluation returns the very same
timestamp and leaves the handle unchanged, even when a fresh reading would
differ. -/
theorem c9_server_time_cached (s : FileLocker) (f₁ f₂ : Int) :
    (FileLocker.serverTimeLock f₂ (FileLocker.serverTimeLock f₁ s).2).1 =
      (FileLocker.serverTimeLock f₁ s).1 ∧
    (FileLocker.serverTimeLock f₂ (FileLocker.serverTimeLock f₁ s).2).2 =
      (FileLocker.serverTimeLock f₁ s).2 := by
  rcases h : s.serverTimeLockCache with _ | v <;>
    simp [FileLocker.serverTimeLock, h]

/-- C10: after `lock()` raises a `TimeoutError` the internal locked flag is
and stays set — `unlock` never clears `isLocked` — so the `locked` query
answers true from then on, and every subsequent `lock()` call on that handle
fails immediately with the `RuntimeError` reentrancy state error, leaving the
handle unchanged: a timed-out handle can never be reused for another
acquisition attempt. -/
theorem c10_timed_out_handle_stuck (env : Env) (fuel : Nat) (c : Cur)
    (s : FileLocker) (msg : String) (s' : FileLocker) (c' : Cur)
    (h : FileLocker.lock env fuel c s =
      some (Outcome.raised (PyError.timeoutError msg), s', c')) :
    s'.locked = true ∧ (∀ u : FileLocker, u.unlock.isLocked = u.isLocked) ∧
    (∀ (env₂ : Env) (fuel₂ : Nat) (c₂ : Cur),
      FileLocker.lock env₂ fuel₂ c₂ s' =
        some (Outcome.raised (PyError.runtimeError "Locker already locked"),
          s', c₂)) := by
  unfold FileLocker.lock at h
  by_cases hL : s.isLocked = true
  · rw [if_pos hL] at h
    simp at h
  · rw [if_neg hL] at h
    have hout := outerLoop_inv env fuel _ _ _ _ _ h (by simp) (by simp)
    have ht := (hout.2.1 (by simp [Outcome.isTimeout])).1
    refine ⟨ht, unlock_isLocked, ?_⟩
    intro env₂ fuel₂ c₂
    unfold FileLocker.lock
    rw [if_pos ht]

/-- C10 witness: the handle that timed out under `envBlocked` reports
`locked = true` and a further `lock()` call fails at once with the
reentrancy error. -/
theorem c10_timed_out_handle_stuck_witness :
    postTimeout.locked = true ∧
    FileLocker.lock envSolo 3 cur0 postTimeout =
      some (Outcome.raised (PyError.runtimeError "Locker already locked"),
        postTimeout, cur0) := by
  have H := c10_timed_out_handle_stuck envBlocked 5 cur0 fresh0 (timeoutMsg 5)
    postTimeout ⟨2, 1, 0, 0⟩ rfl
  exact ⟨H.1, H.2.2 envSolo 3 cur0⟩

end Lockfile
